import Mathlib

/-!
Verification of the TOTP device admin adapter
(src/django_otp/plugins/otp_totp/admin.py), shallowly embedded in Lean.

The adapter is glue over the Django admin scaffolding.  Its external
collaborators (the sensitive-data setting, the device store, the permission
checker, the QR renderer, URL reversal and the admin registry) are passed in as
explicit parameters so that every code path of the adapter itself is a total
Lean function.
-/

namespace OtpTotpAdmin

/-- A TOTP device as seen by this adapter: the only attributes the adapter
reads are the primary key (for URL reversal) and the provisioning URI
(device.config_url, handed to the QR renderer). -/
structure Device where
  pk : Nat
  config_url : String
deriving DecidableEq

/-- Exceptions a view can raise to the framework: PermissionDenied and the
DoesNotExist error of TOTPDevice.objects.get. -/
inductive ViewError where
  | permissionDenied
  | doesNotExist
deriving DecidableEq

/-- An HTTP response: status, the explicitly set content type (none means the
framework default was left in place), and the body. -/
structure HttpResponse where
  status : Nat
  contentType : Option String
  body : String
deriving DecidableEq

/-- The static list_display attribute of TOTPDeviceAdmin. -/
def list_display : List String :=
  ["user", "name", "created_at", "last_used_at", "confirmed"]

/-- TOTPDeviceAdmin.get_list_display: starts from the class attribute (what the
superclass returns) and appends the qrcode_link column when
OTP_ADMIN_HIDE_SENSITIVE_DATA is false. -/
def get_list_display (hide_sensitive : Bool) : List String :=
  let ld := list_display
  if !hide_sensitive then ld ++ ["qrcode_link"] else ld

/-- One admin fieldset: optional section title and the field names it shows. -/
abbrev Fieldset := Option String × List String

/-- TOTPDeviceAdmin.get_fieldsets: the key field is dropped from the
Configuration section when sensitive data is hidden and an existing object is
being edited, and an untitled qrcode_link section is appended when sensitive
data is not hidden and an existing object is shown. -/
def get_fieldsets (hide_sensitive : Bool) (obj : Option Device) : List Fieldset :=
  let configuration_fields :=
    if hide_sensitive && obj.isSome then
      ["step", "t0", "digits", "tolerance"]
    else
      ["key", "step", "t0", "digits", "tolerance"]
  let fieldsets : List Fieldset :=
    [ (some "Identity", ["user", "name", "confirmed"]),
      (some "Timestamps", ["created_at", "last_used_at"]),
      (some "Configuration", configuration_fields),
      (some "State", ["drift"]),
      (some "Throttling", ["throttling_failure_timestamp", "throttling_failure_count"]) ]
  if !hide_sensitive && obj.isSome then
    fieldsets ++ [(none, ["qrcode_link"])]
  else
    fieldsets

/-- Spec-side accessor: the fields shown by the section of the given title. -/
def sectionFields (fieldsets : List Fieldset) (name : String) : List String :=
  ((fieldsets.filter (fun fs => fs.1 == some name)).map (fun fs => fs.2)).flatten

/-- HTML escaping of one character, as django.utils.html does it for the
arguments of format_html. -/
def escape_char (c : Char) : String :=
  if c = '&' then "&amp;"
  else if c = '<' then "&lt;"
  else if c = '>' then "&gt;"
  else if c = '\x22' then "&quot;"
  else if c = '\x27' then "&#x27;"
  else String.singleton c

/-- HTML escaping of a string, as django.utils.html does it for the arguments
of format_html. -/
def html_escape (s : String) : String :=
  String.join (s.toList.map escape_char)

/-- TOTPDeviceAdmin.qrcode_link: best-effort link cell.  reverse models
django.urls.reverse for the config route applied to the primary key; it either
yields the href or fails with some exception (Except.error).  On success the
cell is format_html applied to the anchor template and the href; on failure the
cell is the empty string. -/
def qrcode_link (reverse : Nat → Except Unit String) (device : Device) : String :=
  match reverse device.pk with
  | Except.ok href => "<a href=\"" ++ html_escape href ++ "\">qrcode</a>"
  | Except.error _ => ""

/-- The successful result of config_view: a TemplateResponse with the template
name and the device placed in the context. -/
structure TemplateResp where
  template : String
  device : Device
deriving DecidableEq

/-- TOTPDeviceAdmin.config_view.  store models TOTPDevice.objects.get (none
means the lookup raises DoesNotExist); perm models
self.has_view_or_change_permission for the acting request. -/
def config_view (hide_sensitive : Bool) (store : Nat → Option Device)
    (perm : Device → Bool) (pk : Nat) : Except ViewError TemplateResp :=
  if hide_sensitive then Except.error ViewError.permissionDenied
  else
    match store pk with
    | none => Except.error ViewError.doesNotExist
    | some device =>
      if !perm device then Except.error ViewError.permissionDenied
      else Except.ok ⟨"otp_totp/admin/config.html", device⟩

/-- django_otp.qr.write_qrcode_image as consumed by this adapter: qr = none
models the optional QR dependency being absent (ModuleNotFoundError raised);
qr = some render models a working renderer producing the SVG text for a
provisioning URI. -/
def write_qrcode_image (qr : Option (String → String)) (uri : String) :
    Except Unit String :=
  match qr with
  | none => Except.error ()
  | some render => Except.ok (render uri)

/-- TOTPDeviceAdmin.qrcode_view: the same gate and lookup as config_view, then
an image/svg+xml response filled by the QR renderer, degraded to an empty 503
response when the renderer raises ModuleNotFoundError. -/
def qrcode_view (hide_sensitive : Bool) (store : Nat → Option Device)
    (perm : Device → Bool) (qr : Option (String → String)) (pk : Nat) :
    Except ViewError HttpResponse :=
  if hide_sensitive then Except.error ViewError.permissionDenied
  else
    match store pk with
    | none => Except.error ViewError.doesNotExist
    | some device =>
      if !perm device then Except.error ViewError.permissionDenied
      else
        match write_qrcode_image qr device.config_url with
        | Except.ok body => Except.ok ⟨200, some "image/svg+xml", body⟩
        | Except.error _ => Except.ok ⟨503, none, ""⟩

/-- Modelled from the spec: the admin registry collaborator, whose register
operation succeeds or raises already-registered when the key is present
(section 6 of the spec; admin.site.register itself is framework code outside
this repository).  The registry is an association list keyed by entity type. -/
def site_register (reg : List (String × String)) (key : String)
    (adapter : String) : Except Unit (List (String × String)) :=
  if reg.any (fun e => e.1 == key) then Except.error ()
  else Except.ok (reg ++ [(key, adapter)])

/-- The module-level registration of this file: register the adapter for
TOTPDevice and silently ignore AlreadyRegistered. -/
def register_totp_admin (reg : List (String × String)) : List (String × String) :=
  match site_register reg "TOTPDevice" "TOTPDeviceAdmin" with
  | Except.ok reg2 => reg2
  | Except.error _ => reg

/-- C1: in get_fieldsets, the Configuration section omits the key field exactly
when sensitive data is hidden and an existing object is being edited; when
adding a new device (no existing object) the key field is always included. -/
theorem C1_key_field_visibility (hide_sensitive : Bool) (obj : Option Device) :
    ("key" ∈ sectionFields (get_fieldsets hide_sensitive obj) "Configuration" ↔
      ¬(hide_sensitive = true ∧ obj.isSome = true)) ∧
    (obj = none →
      "key" ∈ sectionFields (get_fieldsets hide_sensitive obj) "Configuration") := by
  cases hide_sensitive <;> cases obj <;>
    simp [get_fieldsets, sectionFields]

/-- C1 witness: adding a new device with sensitive data hidden still shows the
key field. -/
theorem C1_witness :
    "key" ∈ sectionFields (get_fieldsets true none) "Configuration" :=
  (C1_key_field_visibility true none).2 rfl

/-- C2: with sensitive data hidden, both custom views respond forbidden for
every primary key, whatever the store and the permission checker say. -/
theorem C2_flag_forbids (store : Nat → Option Device) (perm : Device → Bool)
    (qr : Option (String → String)) (pk : Nat) :
    config_view true store perm pk = Except.error ViewError.permissionDenied ∧
    qrcode_view true store perm qr pk = Except.error ViewError.permissionDenied :=
  ⟨rfl, rfl⟩

/-- C3: with sensitive data not hidden and the device present, a principal
without view-or-change permission on that device gets forbidden from both
views. -/
theorem C3_no_permission_forbidden (store : Nat → Option Device)
    (perm : Device → Bool) (qr : Option (String → String)) (pk : Nat)
    (device : Device) (hdev : store pk = some device)
    (hperm : perm device = false) :
    config_view false store perm pk = Except.error ViewError.permissionDenied ∧
    qrcode_view false store perm qr pk = Except.error ViewError.permissionDenied := by
  constructor <;> simp [config_view, qrcode_view, hdev, hperm]

/-- C3 witness: a concrete store and an always-refusing permission checker
yield forbidden from both views. -/
theorem C3_witness :
    config_view false (fun _ => some ⟨1, "otpauth-uri"⟩) (fun _ => false) 1 =
      Except.error ViewError.permissionDenied ∧
    qrcode_view false (fun _ => some ⟨1, "otpauth-uri"⟩) (fun _ => false) none 1 =
      Except.error ViewError.permissionDenied :=
  C3_no_permission_forbidden _ _ none 1 ⟨1, "otpauth-uri"⟩ rfl rfl

/-- C4: with the flag false, the device present and permission granted, the
qrcode view returns an image/svg+xml response whose body is the rendering of
the provisioning URI of the device when the renderer is available, and an
empty 503 response when the renderer raises the missing-module error. -/
theorem C4_qrcode_render (store : Nat → Option Device) (perm : Device → Bool)
    (render : String → String) (pk : Nat) (device : Device)
    (hdev : store pk = some device) (hperm : perm device = true) :
    qrcode_view false store perm (some render) pk =
      Except.ok ⟨200, some "image/svg+xml", render device.config_url⟩ ∧
    qrcode_view false store perm none pk = Except.ok ⟨503, none, ""⟩ := by
  constructor <;> simp [qrcode_view, write_qrcode_image, hdev, hperm]

/-- C4 witness: concrete renderer available and absent at a concrete device. -/
theorem C4_witness :
    qrcode_view false (fun _ => some ⟨2, "uri2"⟩) (fun _ => true)
        (some (fun u => "svg:" ++ u)) 2 =
      Except.ok ⟨200, some "image/svg+xml", "svg:uri2"⟩ ∧
    qrcode_view false (fun _ => some ⟨2, "uri2"⟩) (fun _ => true) none 2 =
      Except.ok ⟨503, none, ""⟩ :=
  C4_qrcode_render _ _ (fun u => "svg:" ++ u) 2 ⟨2, "uri2"⟩ rfl rfl

/-- C5: the qrcode_link cell function is total; if URL reversal succeeds it
returns the HTML anchor built from the href for the primary key of the device,
and on any failure of URL construction it returns the empty string. -/
theorem C5_qrcode_link_best_effort (reverse : Nat → Except Unit String)
    (device : Device) :
    (∀ href, reverse device.pk = Except.ok href →
      qrcode_link reverse device =
        "<a href=\"" ++ html_escape href ++ "\">qrcode</a>") ∧
    (∀ e, reverse device.pk = Except.error e →
      qrcode_link reverse device = "") := by
  constructor <;> intro x hx <;> simp [qrcode_link, hx]

/-- C5 witness: concrete reversal success gives the anchor, concrete failure
gives the empty cell. -/
theorem C5_witness :
    qrcode_link (fun _ => Except.ok "/admin/1/config/") ⟨1, "u"⟩ =
      "<a href=\"/admin/1/config/\">qrcode</a>" ∧
    qrcode_link (fun _ => Except.error ()) ⟨1, "u"⟩ = "" :=
  ⟨((C5_qrcode_link_best_effort (fun _ => Except.ok "/admin/1/config/")
      ⟨1, "u"⟩).1 "/admin/1/config/" rfl).trans (by decide),
   (C5_qrcode_link_best_effort (fun _ => Except.error ()) ⟨1, "u"⟩).2 () rfl⟩

/-- C6: the list display is user, name, created_at, last_used_at, confirmed,
with qrcode_link appended exactly when sensitive data is not hidden. -/
theorem C6_list_display (hide_sensitive : Bool) :
    get_list_display hide_sensitive =
      ["user", "name", "created_at", "last_used_at", "confirmed"] ++
        (if hide_sensitive then [] else ["qrcode_link"]) := by
  cases hide_sensitive <;> rfl

/-- C7: the section titles of get_fieldsets are the five named sections, with
an untitled section appended exactly when an existing object is shown and
sensitive data is not hidden; in that case the appended last section holds the
qrcode_link field. -/
theorem C7_qr_section (hide_sensitive : Bool) (obj : Option Device) :
    ((get_fieldsets hide_sensitive obj).map Prod.fst =
      [some "Identity", some "Timestamps", some "Configuration", some "State",
        some "Throttling"] ++
        (if obj.isSome && !hide_sensitive then [none] else [])) ∧
    (obj.isSome = true → hide_sensitive = false →
      (get_fieldsets hide_sensitive obj).getLast? =
        some (none, ["qrcode_link"])) := by
  cases hide_sensitive <;> cases obj <;> simp [get_fieldsets]

/-- C7 witness: an existing object with the flag false ends with the untitled
qrcode_link section. -/
theorem C7_witness :
    (get_fieldsets false (some ⟨3, "u3"⟩)).getLast? =
      some (none, ["qrcode_link"]) :=
  (C7_qr_section false (some ⟨3, "u3"⟩)).2 rfl rfl

/-- C8: with the flag false, both views look the device up by primary key and
let the not-found failure of the lookup propagate uncaught when no device has
that key. -/
theorem C8_not_found_propagates (store : Nat → Option Device)
    (perm : Device → Bool) (qr : Option (String → String)) (pk : Nat)
    (h : store pk = none) :
    config_view false store perm pk = Except.error ViewError.doesNotExist ∧
    qrcode_view false store perm qr pk = Except.error ViewError.doesNotExist := by
  constructor <;> simp [config_view, qrcode_view, h]

/-- C8 witness: an empty store makes both views propagate not-found. -/
theorem C8_witness :
    config_view false (fun _ => none) (fun _ => true) 7 =
      Except.error ViewError.doesNotExist ∧
    qrcode_view false (fun _ => none) (fun _ => true) none 7 =
      Except.error ViewError.doesNotExist :=
  C8_not_found_propagates _ _ none 7 rfl

/-- C10: the flag check precedes the lookup, which precedes the permission
check: with the flag true a nonexistent primary key yields forbidden, not
not-found; with the flag false a nonexistent primary key yields not-found even
under a permission checker that refuses everything. -/
theorem C10_check_ordering (store : Nat → Option Device) (perm : Device → Bool)
    (qr : Option (String → String)) (pk : Nat) (h : store pk = none) :
    (config_view true store perm pk = Except.error ViewError.permissionDenied ∧
     qrcode_view true store perm qr pk = Except.error ViewError.permissionDenied) ∧
    (config_view false store perm pk = Except.error ViewError.doesNotExist ∧
     qrcode_view false store perm qr pk = Except.error ViewError.doesNotExist) := by
  refine ⟨⟨rfl, rfl⟩, ?_, ?_⟩ <;> simp [config_view, qrcode_view, h]

/-- C10 witness: a nonexistent primary key under a refusing permission checker
gives forbidden when the flag is on and not-found when it is off. -/
theorem C10_witness :
    (config_view true (fun _ => none) (fun _ => false) 9 =
      Except.error ViewError.permissionDenied) ∧
    (config_view false (fun _ => none) (fun _ => false) 9 =
      Except.error ViewError.doesNotExist) :=
  ⟨(C10_check_ordering (fun _ => none) (fun _ => false) none 9 rfl).1.1,
   (C10_check_ordering (fun _ => none) (fun _ => false) none 9 rfl).2.1⟩

/-- C9: registering the adapter when it is already registered raises
AlreadyRegistered, the module-level code catches it, and the second
registration leaves the registry unchanged. -/
theorem C9_register_idempotent (reg : List (String × String)) :
    site_register (register_totp_admin reg) "TOTPDevice" "TOTPDeviceAdmin" =
      Except.error () ∧
    register_totp_admin (register_totp_admin reg) = register_totp_admin reg := by
  have hmem :
      ((register_totp_admin reg).any (fun e => e.1 == "TOTPDevice")) = true := by
    by_cases hany : reg.any (fun e => e.1 == "TOTPDevice") = true
    · simp [register_totp_admin, site_register, hany]
    · simp only [Bool.not_eq_true] at hany
      simp [register_totp_admin, site_register, hany]
  have h1 :
      site_register (register_totp_admin reg) "TOTPDevice" "TOTPDeviceAdmin" =
        Except.error () := by
    simp [site_register, hmem]
  refine ⟨h1, ?_⟩
  generalize hR : register_totp_admin reg = R at h1 ⊢
  simp [register_totp_admin, h1]

end OtpTotpAdmin
